import Mathlib

/-!
Verification of the Donet DC-schema compiler core.

A shallow embedding of the Rust sources:
* `src/libdonet/src/dctype.rs` — the DC type system (`DCTypeEnum`,
  `DCTypeDefinition`, `DCNumber`);
* `src/libdonet/src/dcfile.rs` — the class model (`DClass` and its
  interface);
* `src/libdonet/src/parser/semantics.rs` — the semantic analyzer;
* `src/donet-core/src/protocol.rs` — the `Protocol` message-type enum.

Rust `&mut self` getter methods are embedded as state-passing functions
returning the result paired with the post-call state, so that absence of
mutation is a provable statement.  `Arc<Mutex<T>>` shared handles are
embedded by their pointer identity (a heap address), following the
arena-index reading of the design notes.  Machine integers are embedded
as `Nat`/`Int` (no arithmetic in the embedded fragment can overflow: the
code only stores and compares them).  A Rust panic (`todo!()`) is
embedded as `none` in an `Option`-valued result.
-/

namespace Donet

/-! ### Type system — src/libdonet/src/dctype.rs -/

/-- `DCTypeEnum` from dctype.rs: every data type supported by the DC
language.  The variants carry assigned `repr(u8)` discriminants, kept in
`DCTypeEnum.toTag` below. -/
inductive DCTypeEnum where
  | TInt8 | TInt16 | TInt32 | TInt64
  | TUInt8 | TChar | TUInt16 | TUInt32 | TUInt64
  | TFloat32 | TFloat64
  | TString | TVarString
  | TBlob | TVarBlob
  | TBlob32 | TVarBlob32
  | TArray | TVarArray
  | TStruct | TMethod
  | TInvalid
  deriving DecidableEq, Repr

/-- The assigned `u8` discriminant of each `DCTypeEnum` variant
(`TInt8 = 0, ..., TInvalid = 21` in dctype.rs), the value fed verbatim
into the schema hash. -/
def DCTypeEnum.toTag : DCTypeEnum → Nat
  | .TInt8 => 0
  | .TInt16 => 1
  | .TInt32 => 2
  | .TInt64 => 3
  | .TUInt8 => 4
  | .TChar => 8
  | .TUInt16 => 5
  | .TUInt32 => 6
  | .TUInt64 => 7
  | .TFloat32 => 9
  | .TFloat64 => 10
  | .TString => 11
  | .TVarString => 12
  | .TBlob => 13
  | .TVarBlob => 14
  | .TBlob32 => 19
  | .TVarBlob32 => 20
  | .TArray => 15
  | .TVarArray => 16
  | .TStruct => 17
  | .TMethod => 18
  | .TInvalid => 21

/-- Follows the spec's words, not the source (used only to compare the
code against the spec's "variable-length" invariant): the variable-length
kinds are the `var`-prefixed sized data types of `DCTypeEnum`
(`var string`, `var blob`, `var blob32`, `var array`). -/
def spec_variable_length_kind : DCTypeEnum → Bool
  | .TVarString => true
  | .TVarBlob => true
  | .TVarBlob32 => true
  | .TVarArray => true
  | _ => false

/-- Modelled from the spec: one primitive call to the hash generator of
§4.2 (`hashgen.rs` is not under src/) — `add_int(i32)` or
`add_string(String)`. -/
inductive HashCall where
  | addInt (i : Int)
  | addString (s : String)
  deriving DecidableEq, Repr

/-- Modelled from the spec: the order-sensitive accumulating hash
generator of §4.2 (`hashgen.rs` is not under src/).  The state is the
exact sequence of primitive calls made so far, in order; the collapse to
the final 32-bit value is `DCHashGenerator.get_hash`. -/
abbrev DCHashGenerator := List HashCall

/-- `add_int(i32)`: records the integer in the running call sequence. -/
def DCHashGenerator.add_int (g : DCHashGenerator) (i : Int) : DCHashGenerator :=
  g ++ [HashCall.addInt i]

/-- `add_string(String)`: records the string in the running call
sequence. -/
def DCHashGenerator.add_string (g : DCHashGenerator) (s : String) : DCHashGenerator :=
  g ++ [HashCall.addString s]

/-- Modelled from the spec: the numeric contribution of one primitive
call.  §4.2 fixes only that each integer's bytes and each string's
length-prefixed bytes feed a deterministic 32-bit checksum; the legacy
bit mixing itself is not under src/, so one concrete deterministic
mixing (mod 2^32) stands for it. -/
def hashCallValue : HashCall → Nat
  | .addInt i => (i % (2 ^ 32 : Int)).toNat
  | .addString s => (s.foldl (fun a c => (a * 256 + c.toNat) % 2 ^ 32) s.length) % 2 ^ 32

/-- Modelled from the spec: the accumulated 32-bit hash of a call
sequence — a deterministic fold of `hashCallValue` (mod 2^32) over the
calls in order. -/
def DCHashGenerator.get_hash (g : DCHashGenerator) : Nat :=
  g.foldl (fun h c => (h * 31 + hashCallValue c) % 2 ^ 32) 0

/-- `globals::DgSizeTag` (globals.rs is not under src/): the `u16` wire
size of a fixed-length type, embedded as `Nat`; the code under src/
only ever stores `0`. -/
abbrev DgSizeTag := Nat

/-- `DCTypeDefinition` from dctype.rs: an optional user alias, the data
type, and the wire size tag.  (The Rust field is named `alias`; that
word is a reserved command name here, so the field is `alias_name`.) -/
structure DCTypeDefinition where
  alias_name : Option String
  data_type : DCTypeEnum
  size : DgSizeTag
  deriving DecidableEq, Repr

/-- The `Default` impl for `DCTypeDefinition`: no alias, `TInvalid`,
size `0_u16`. -/
def DCTypeDefinition.default : DCTypeDefinition :=
  { alias_name := none, data_type := .TInvalid, size := 0 }

/-- `DCTypeDefinition::new`: the default value. -/
def DCTypeDefinition.new : DCTypeDefinition := DCTypeDefinition.default

/-- `DCTypeDefinition::new_with_type(dt)`: no alias, the given type,
size `0_u16`. -/
def DCTypeDefinition.new_with_type (dt : DCTypeEnum) : DCTypeDefinition :=
  { alias_name := none, data_type := dt, size := 0 }

/-- `DCTypeDefinition::generate_hash`: adds
`i32::from(self.data_type as u8)` to the hash generator, then the alias
string only if an alias is present. -/
def DCTypeDefinition.generate_hash (td : DCTypeDefinition) (hashgen : DCHashGenerator) :
    DCHashGenerator :=
  let g := hashgen.add_int (td.data_type.toTag : Int)
  match td.alias_name with
  | some a => g.add_string a
  | none => g

/-- `DCTypeDefinition::get_dc_type`. -/
def DCTypeDefinition.get_dc_type (td : DCTypeDefinition) : DCTypeEnum := td.data_type

/-- `DCTypeDefinition::is_variable_length`: true iff `size == 0_u16`. -/
def DCTypeDefinition.is_variable_length (td : DCTypeDefinition) : Bool := td.size == 0

/-- `DCTypeDefinition::get_size`. -/
def DCTypeDefinition.get_size (td : DCTypeDefinition) : DgSizeTag := td.size

/-- `DCTypeDefinition::has_alias`. -/
def DCTypeDefinition.has_alias (td : DCTypeDefinition) : Bool := td.alias_name.isSome

/-- `DCTypeDefinition::get_alias`: `Ok` of the alias when present,
`Err(())` otherwise. -/
def DCTypeDefinition.get_alias (td : DCTypeDefinition) : Except Unit String :=
  match td.alias_name with
  | some a => .ok a
  | none => .error ()

/-- `DCTypeDefinition::set_alias(alias)`. -/
def DCTypeDefinition.set_alias (td : DCTypeDefinition) (a : String) : DCTypeDefinition :=
  { td with alias_name := some a }

/-- The type definitions reachable through the public constructors of
dctype.rs: `new_with_type` with any kind, optionally followed by
`set_alias`. -/
def ReachableTypeDef (td : DCTypeDefinition) : Prop :=
  (∃ dt, td = DCTypeDefinition.new_with_type dt) ∨
    (∃ dt a, td = (DCTypeDefinition.new_with_type dt).set_alias a)

/-! ### DC numbers — src/libdonet/src/dctype.rs -/

/-- `DCNumberType` from dctype.rs: the kind tag of a numeric literal. -/
inductive DCNumberType where
  | None | Int | UInt | Float
  deriving DecidableEq, Repr

/-- `DCNumberValueUnion` from dctype.rs: a C-layout union of
`i64`/`u64`/`f64`, embedded as a sum carrying the one written (active)
representation; the `f64` case is carried as its IEEE-754 bit pattern so
no floating-point arithmetic enters the embedding (no code under src/
ever computes with it). -/
inductive DCNumberValueUnion where
  | integer (i : Int)
  | unsigned_integer (u : Nat)
  | floating_point (bits : Nat)
  deriving DecidableEq, Repr

/-- `DCNumber` from dctype.rs: a kind tag paired with the union value. -/
structure DCNumber where
  number_type : DCNumberType
  value : DCNumberValueUnion
  deriving Repr

/-- The manual `PartialEq` impl for `DCNumber` in dctype.rs: `==`
compares `number_type` only, never the union payload. -/
def DCNumber.eq (a rhs : DCNumber) : Bool := a.number_type == rhs.number_type

/-- The `Default` impl for `DCNumber`: kind `None`, integer payload 0. -/
def DCNumber.default : DCNumber :=
  { number_type := .None, value := .integer 0 }

/-- `DCNumber::new`. -/
def DCNumber.new : DCNumber := DCNumber.default

/-- `DCNumber::new_integer(num: i64)`. -/
def DCNumber.new_integer (num : Int) : DCNumber :=
  { number_type := .Int, value := .integer num }

/-- `DCNumber::new_unsigned_integer(num: u64)`. -/
def DCNumber.new_unsigned_integer (num : Nat) : DCNumber :=
  { number_type := .UInt, value := .unsigned_integer num }

/-- `DCNumber::new_floating_point(num: f64)`, the argument given by its
bit pattern. -/
def DCNumber.new_floating_point (num_bits : Nat) : DCNumber :=
  { number_type := .Float, value := .floating_point num_bits }

/-! ### Class model — src/libdonet/src/dcfile.rs -/

/-- An `Arc<Mutex<DClass>>` shared class handle from dcfile.rs, embedded
by its pointer identity (heap address): cloning the `Arc` yields the
same address, which is all the code under src/ ever does with it. -/
structure DClassRef where
  addr : Nat
  deriving DecidableEq, Repr

/-- An `Arc<Mutex<DCField>>` shared field handle from dcfile.rs,
embedded by its pointer identity. -/
structure DCFieldRef where
  addr : Nat
  deriving DecidableEq, Repr

/-- `FieldName2Field = MultiMap<String, Arc<Mutex<DCField>>>`: the
multimap embedded as its insertion-ordered list of key/value pairs. -/
abbrev FieldName2Field := List (String × DCFieldRef)

/-- `FieldIndex2Field = MultiMap<FieldId, Arc<Mutex<DCField>>>`,
embedded the same way (`globals::FieldId` as `Nat`). -/
abbrev FieldIndex2Field := List (Nat × DCFieldRef)

/-- `DClass` from dcfile.rs.  `globals::DClassId` (globals.rs is not
under src/) is embedded as `Nat`: the code under src/ only stores and
returns it. -/
structure DClass where
  class_name : String
  class_id : Nat
  is_struct : Bool
  is_bogus_class : Bool
  class_parents : List DClassRef
  constructor : Option DCFieldRef
  fields : List DCFieldRef
  inherited_fields : List DCFieldRef
  field_name_2_field : FieldName2Field
  field_index_2_field : FieldIndex2Field
  deriving DecidableEq, Repr

/-- `DClass::new(name, id)` from the `DClassInterface` impl: a root
class with the given name and id, not a struct, bogus until validated,
no parents, no constructor, no fields, empty lookup maps. -/
def DClass.new (name : String) (id : Nat) : DClass :=
  { class_name := name
    class_id := id
    is_struct := false
    is_bogus_class := true
    class_parents := []
    constructor := none
    fields := []
    inherited_fields := []
    field_name_2_field := []
    field_index_2_field := [] }

/-- `DClass::generate_hash` is `todo!()` in dcfile.rs: calling it panics
unconditionally; the panic is embedded as `none`. -/
def DClass.generate_hash (_c : DClass) (_hashgen : DCHashGenerator) :
    Option DCHashGenerator :=
  none

/-- `DClass::set_parent(parent)`: `self.class_parents.push(parent)` —
appends the handle at the end of the parent list. -/
def DClass.set_parent (c : DClass) (parent : DClassRef) : DClass :=
  { c with class_parents := c.class_parents ++ [parent] }

/-- `DClass::get_name(&mut self)`: the result paired with the post-call
state. -/
def DClass.get_name (c : DClass) : String × DClass := (c.class_name, c)

/-- `DClass::get_class_id(&mut self)`. -/
def DClass.get_class_id (c : DClass) : Nat × DClass := (c.class_id, c)

/-- `DClass::get_num_parents(&mut self)`: `self.class_parents.len()`. -/
def DClass.get_num_parents (c : DClass) : Nat × DClass := (c.class_parents.length, c)

/-- `DClass::get_parent(&mut self, index)`:
`self.class_parents.get(index).cloned()` — `Vec::get` is `none` out of
bounds, and `.cloned()` on the `Arc` keeps the same address. -/
def DClass.get_parent (c : DClass) (index : Nat) : Option DClassRef × DClass :=
  (c.class_parents.get? index, c)

/-- `DClass::has_constructor(&mut self)`: `self.constructor.is_some()`. -/
def DClass.has_constructor (c : DClass) : Bool × DClass := (c.constructor.isSome, c)

/-- `DClass::get_constructor(&mut self)`: `self.constructor.clone()`. -/
def DClass.get_constructor (c : DClass) : Option DCFieldRef × DClass := (c.constructor, c)

/-- `DCStruct` from dcfile.rs: an empty struct in the source shown. -/
inductive DCStruct where
  | mk
  deriving DecidableEq, Repr

/-! ### Parser AST and schema aggregate

The `ast` module, `globals.rs` and `dcfile::DCFile` /
`dcfile::intermediate::DCFile` are not under src/; their shapes are
modelled from the spec (§3, §6) and from how semantics.rs reads them. -/

/-- Modelled from the spec: a recorded python-import declaration — the
module name and the expanded symbol list (§3's aggregate entry, and the
`module` / `symbols` fields read by the unit test in semantics.rs; the
`DCPythonImport` type itself is not under src/). -/
structure DCPythonImport where
  module : String
  symbols : List String
  deriving DecidableEq, Repr

/-- Modelled from the spec: the symbol part of a parsed import clause —
`*`, a bare name, or a multi-suffix expression `Base/SuffixA/SuffixB`
(§3; the parser is not under src/). -/
inductive ImportSymbols where
  | star
  | single (name : String)
  | multiSuffix (base : String) (suffixes : List String)
  deriving DecidableEq, Repr

/-- Modelled from the spec: expansion of an import clause into the
recorded `DCPythonImport` (the parser-side code is not under src/).  A
multi-suffix expression expands to the bare base name plus one symbol
per suffix concatenated onto the base, preserving source order; `*` and
a bare name record a single symbol. -/
def expand_import (module : String) : ImportSymbols → DCPythonImport
  | .star => { module := module, symbols := ["*"] }
  | .single n => { module := module, symbols := [n] }
  | .multiSuffix base suffixes =>
      { module := module, symbols := base :: suffixes.map (fun s => base ++ s) }

/-- Modelled from the spec: the parser's typedef declaration node (a
base type plus the alias name; §4.4).  Its exact shape is not under
src/, and the analyzer arm `TypedefType(_) => {}` discards it unread. -/
structure TypedefDecl where
  base_type : DCTypeEnum
  type_alias : String
  deriving DecidableEq, Repr

/-- Modelled from the spec: the parser's struct declaration node (not
under src/; discarded unread by `StructType(_) => {}`). -/
structure StructDecl where
  struct_name : String
  deriving DecidableEq, Repr

/-- Modelled from the spec: the parser's dclass declaration node (not
under src/; discarded unread by `DClassType(_) => {}`). -/
structure DClassDecl where
  decl_name : String
  parent_names : List String
  deriving DecidableEq, Repr

/-- Modelled from the spec: the parser's keyword declaration node (not
under src/; discarded unread by `KeywordType(_) => {}`). -/
structure KeywordDecl where
  keyword : String
  deriving DecidableEq, Repr

/-- `ast::TypeDeclaration` as consumed by semantics.rs: python-import,
keyword-type, struct-type, dclass-type, typedef-type, or the explicit
`Ignore` marker for deprecated-but-accepted grammar. -/
inductive TypeDeclaration where
  | PythonImport (imp : DCPythonImport)
  | KeywordType (k : KeywordDecl)
  | StructType (s : StructDecl)
  | DClassType (d : DClassDecl)
  | TypedefType (t : TypedefDecl)
  | Ignore
  deriving DecidableEq, Repr

/-- One source file's abstract syntax tree: the ordered list of type
declarations (the field read by semantics.rs as
`ast.type_declarations`). -/
structure AST where
  type_declarations : List TypeDeclaration
  deriving DecidableEq, Repr

/-- The analyzer's input: the ordered per-file syntax trees (the field
read by semantics.rs as `data.syntax_trees`). -/
structure PipelineData where
  syntax_trees : List AST
  deriving DecidableEq, Repr

/-- `globals::ParseError` (globals.rs is not under src/): no claim
inspects its variants, so a single placeholder variant stands for it. -/
inductive ParseError where
  | error
  deriving DecidableEq, Repr

namespace intermediate

/-- Modelled from the spec: the mutable intermediate schema aggregate of
§3 (`dcfile::intermediate::DCFile` is not under src/) — ordered lists of
python imports, typedefs, structs and classes. -/
structure DCFile where
  python_imports : List DCPythonImport
  typedefs : List DCTypeDefinition
  structs : List DCStruct
  dclasses : List DClass
  deriving DecidableEq, Repr

/-- Modelled from the spec: `DCFile::default()` — every list empty. -/
def DCFile.default : DCFile :=
  { python_imports := [], typedefs := [], structs := [], dclasses := [] }

/-- Modelled from the spec: `add_python_import` appends the declaration
verbatim at the end of the aggregate's ordered import list (§4.4). -/
def DCFile.add_python_import (f : DCFile) (imp : DCPythonImport) : DCFile :=
  { f with python_imports := f.python_imports ++ [imp] }

end intermediate

/-- Modelled from the spec: the published immutable schema aggregate of
§3 (`dcfile::DCFile` is not under src/) — the same content plus the
accumulated 32-bit schema hash. -/
structure DCFile where
  python_imports : List DCPythonImport
  typedefs : List DCTypeDefinition
  structs : List DCStruct
  dclasses : List DClass
  hash : Nat
  deriving DecidableEq, Repr

/-- Modelled from the spec: one recorded import's hash contribution (the
exact calls are not under src/) — the module name and each expanded
symbol fed in order. -/
def DCPythonImport.generate_hash (imp : DCPythonImport) (g : DCHashGenerator) :
    DCHashGenerator :=
  imp.symbols.foldl (fun g s => g.add_string s) (g.add_string imp.module)

/-- `DCStruct` is an empty struct in the source shown: its hash
contribution has nothing to feed. -/
def DCStruct.generate_hash (_s : DCStruct) (g : DCHashGenerator) : DCHashGenerator := g

/-- Modelled from the spec: finalization (`dc_file.into()` in
semantics.rs; the conversion itself is not under src/) — converts the
intermediate aggregate into the published form and computes the
whole-schema hash by walking, in strict order, imports → typedefs →
structs → classes, invoking each element's own hash contribution (§4.4).
Each class's contribution is `DClass::generate_hash`, which the source
leaves `todo!()`: reaching it panics, embedded as `none`. -/
def intermediate.DCFile.finalize (f : intermediate.DCFile) : Option Donet.DCFile :=
  let g1 := f.python_imports.foldl (fun g i => i.generate_hash g) ([] : DCHashGenerator)
  let g2 := f.typedefs.foldl (fun g t => t.generate_hash g) g1
  let g3 := f.structs.foldl (fun g s => s.generate_hash g) g2
  match f.dclasses.foldlM (fun g c => c.generate_hash g) g3 with
  | some gfin =>
      some { python_imports := f.python_imports, typedefs := f.typedefs,
             structs := f.structs, dclasses := f.dclasses,
             hash := DCHashGenerator.get_hash gfin }
  | none => none

/-! ### Semantic analyzer — src/libdonet/src/parser/semantics.rs -/

/-- One arm of the `match type_declaration` in `semantic_analyzer`:
`PythonImport` is added to the DC file; `KeywordType`, `StructType`,
`DClassType`, `TypedefType` and `Ignore` do nothing. -/
def handle_declaration (f : intermediate.DCFile) : TypeDeclaration → intermediate.DCFile
  | .PythonImport imp => f.add_python_import imp
  | .KeywordType _ => f
  | .StructType _ => f
  | .DClassType _ => f
  | .TypedefType _ => f
  | .Ignore => f

/-- `semantic_analyzer` from semantics.rs: iterates through all ASTs and
their type declarations, folding each into the intermediate DC file,
then converts to the final immutable DC file (`Ok(dc_file.into())`).
The outer `Option` layer carries a possible panic inside the conversion
(`DClass::generate_hash` is `todo!()`). -/
def semantic_analyzer (data : PipelineData) : Option (Except ParseError DCFile) :=
  let dc_file := data.syntax_trees.foldl
    (fun f ast => ast.type_declarations.foldl handle_declaration f)
    intermediate.DCFile.default
  dc_file.finalize.map Except.ok

/-! ### Protocol message types — src/donet-core/src/protocol.rs -/

/-- `Protocol` from src/donet-core/src/protocol.rs: every message
type in the Donet protocol; the assigned `repr(u16)` discriminants are
kept in `Protocol.toU16` below. -/
inductive Protocol where
  | ClientHello | ClientHelloResp | ClientDisconnect | ClientEject
  | ClientHeartbeat | ClientObjectSetField | ClientObjectSetFields | ClientObjectLeaving
  | ClientObjectLeavingOwner | ClientEnterObjectRequired | ClientEnterObjectRequiredOther | ClientEnterObjectRequiredOwner
  | ClientEnterObjectRequiredOwnerOther | ClientDoneInterestResp | ClientAddInterest | ClientAddInterestMultiple
  | ClientRemoveInterest | ClientObjectLocation | CASetState | CASetClientID
  | CASendDatagram | CAEject | CADrop | CAGetNetworkAddress
  | CAGetNetworkAddressResp | CADeclareObject | CAUndeclareObject | CAAddSessionObject
  | CARemoveSessionObject | CASetFieldsSendable | CAOpenChannel | CACloseChannel
  | CAAddPostRemove | CAClearPostRemoves | CAAddInterest | CAAddInterestMultiple
  | CARemoveInterest | SSCreateObjectWithRequired | SSCreateObjectWithRequiredOther | SSDeleteAIObjects
  | SSObjectGetField | SSObjectGetFieldResp | SSObjectGetFields | SSObjectGetFieldsResp
  | SSObjectGetAll | SSObjectGetAllResp | SSObjectSetField | SSObjectSetFields
  | SSObjectDeleteFieldRAM | SSObjectDeleteFieldsRAM | SSObjectDeleteRAM | SSObjectSetLocation
  | SSObjectChangingLocation | SSObjectEnterLocationWithRequired | SSObjectEnterLocationWithRequiredOther | SSObjectGetLocation
  | SSObjectGetLocationResp | SSObjectSetAI | SSObjectChangingAI | SSObjectEnterAIWithRequired
  | SSObjectEnterAIWithRequiredOther | SSObjectGetAI | SSObjectGetAIResp | SSObjectSetOwner
  | SSObjectChangingOwner | SSObjectEnterOwnerWithRequired | SSObjectEnterOwnerWithRequiredOther | SSObjectGetOwner
  | SSObjectGetOwnerResp | SSObjectGetZoneObjects | SSObjectGetZonesObjects | SSObjectGetChildren
  | SSObjectGetZoneCount | SSObjectGetZoneCountResp | SSObjectGetZonesCount | SSObjectGetZonesCountResp
  | SSObjectGetChildCount | SSObjectGetChildCountResp | SSObjectDeleteZone | SSObjectDeleteZones
  | SSObjectDeleteChildren | DBSSObjectActivateWithDefaults | DBSSObjectActivateWithDefaultsOther | DBSSObjectGetActivated
  | DBSSObjectGetActivatedResp | DBSSObjectDeleteFieldDisk | DBSSObjectDeleteFieldsDisk | DBSSObjectDeleteDisk
  | DBCreateObject | DBCreateObjectResp | DBObjectGetField | DBObjectGetFieldResp
  | DBObjectGetFields | DBObjectGetFieldsResp | DBObjectGetAll | DBObjectGetAllResp
  | DBObjectSetField | DBObjectSetFields | DBObjectSetFieldIfEquals | DBObjectSetFieldIfEqualsResp
  | DBObjectSetFieldsIfEquals | DBObjectSetFieldsIfEqualsResp | DBObjectSetFieldIfEmpty | DBObjectSetFieldIfEmptyResp
  | DBObjectDeleteField | DBObjectDeleteFields | DBObjectDelete | MDAddChannel
  | MDRemoveChannel | MDAddRange | MDRemoveRange | MDAddPostRemove
  | MDClearPostRemoves | MDSetConName | MDSetConUrl | MDLogMessage
  deriving DecidableEq, Repr, Fintype

/-- The assigned 16-bit message ID of each `Protocol` variant. -/
def Protocol.toU16 : Protocol → Nat
  | .ClientHello => 1
  | .ClientHelloResp => 2
  | .ClientDisconnect => 3
  | .ClientEject => 4
  | .ClientHeartbeat => 5
  | .ClientObjectSetField => 120
  | .ClientObjectSetFields => 121
  | .ClientObjectLeaving => 132
  | .ClientObjectLeavingOwner => 161
  | .ClientEnterObjectRequired => 142
  | .ClientEnterObjectRequiredOther => 143
  | .ClientEnterObjectRequiredOwner => 172
  | .ClientEnterObjectRequiredOwnerOther => 173
  | .ClientDoneInterestResp => 204
  | .ClientAddInterest => 200
  | .ClientAddInterestMultiple => 201
  | .ClientRemoveInterest => 203
  | .ClientObjectLocation => 140
  | .CASetState => 1000
  | .CASetClientID => 1001
  | .CASendDatagram => 1002
  | .CAEject => 1004
  | .CADrop => 1005
  | .CAGetNetworkAddress => 1006
  | .CAGetNetworkAddressResp => 1007
  | .CADeclareObject => 1010
  | .CAUndeclareObject => 1011
  | .CAAddSessionObject => 1012
  | .CARemoveSessionObject => 1013
  | .CASetFieldsSendable => 1014
  | .CAOpenChannel => 1100
  | .CACloseChannel => 1101
  | .CAAddPostRemove => 1110
  | .CAClearPostRemoves => 1111
  | .CAAddInterest => 1200
  | .CAAddInterestMultiple => 1201
  | .CARemoveInterest => 1203
  | .SSCreateObjectWithRequired => 2000
  | .SSCreateObjectWithRequiredOther => 2001
  | .SSDeleteAIObjects => 2009
  | .SSObjectGetField => 2010
  | .SSObjectGetFieldResp => 2011
  | .SSObjectGetFields => 2012
  | .SSObjectGetFieldsResp => 2013
  | .SSObjectGetAll => 2014
  | .SSObjectGetAllResp => 2015
  | .SSObjectSetField => 2020
  | .SSObjectSetFields => 2021
  | .SSObjectDeleteFieldRAM => 2030
  | .SSObjectDeleteFieldsRAM => 2031
  | .SSObjectDeleteRAM => 2032
  | .SSObjectSetLocation => 2040
  | .SSObjectChangingLocation => 2041
  | .SSObjectEnterLocationWithRequired => 2042
  | .SSObjectEnterLocationWithRequiredOther => 2043
  | .SSObjectGetLocation => 2044
  | .SSObjectGetLocationResp => 2045
  | .SSObjectSetAI => 2050
  | .SSObjectChangingAI => 2051
  | .SSObjectEnterAIWithRequired => 2052
  | .SSObjectEnterAIWithRequiredOther => 2053
  | .SSObjectGetAI => 2054
  | .SSObjectGetAIResp => 2055
  | .SSObjectSetOwner => 2060
  | .SSObjectChangingOwner => 2061
  | .SSObjectEnterOwnerWithRequired => 2062
  | .SSObjectEnterOwnerWithRequiredOther => 2063
  | .SSObjectGetOwner => 2064
  | .SSObjectGetOwnerResp => 2065
  | .SSObjectGetZoneObjects => 2100
  | .SSObjectGetZonesObjects => 2102
  | .SSObjectGetChildren => 2104
  | .SSObjectGetZoneCount => 2110
  | .SSObjectGetZoneCountResp => 2111
  | .SSObjectGetZonesCount => 2112
  | .SSObjectGetZonesCountResp => 2113
  | .SSObjectGetChildCount => 2114
  | .SSObjectGetChildCountResp => 2115
  | .SSObjectDeleteZone => 2120
  | .SSObjectDeleteZones => 2122
  | .SSObjectDeleteChildren => 2124
  | .DBSSObjectActivateWithDefaults => 2200
  | .DBSSObjectActivateWithDefaultsOther => 2201
  | .DBSSObjectGetActivated => 2207
  | .DBSSObjectGetActivatedResp => 2208
  | .DBSSObjectDeleteFieldDisk => 2230
  | .DBSSObjectDeleteFieldsDisk => 2231
  | .DBSSObjectDeleteDisk => 2232
  | .DBCreateObject => 3000
  | .DBCreateObjectResp => 3001
  | .DBObjectGetField => 3010
  | .DBObjectGetFieldResp => 3011
  | .DBObjectGetFields => 3012
  | .DBObjectGetFieldsResp => 3013
  | .DBObjectGetAll => 3014
  | .DBObjectGetAllResp => 3015
  | .DBObjectSetField => 3020
  | .DBObjectSetFields => 3021
  | .DBObjectSetFieldIfEquals => 3022
  | .DBObjectSetFieldIfEqualsResp => 3023
  | .DBObjectSetFieldsIfEquals => 3024
  | .DBObjectSetFieldsIfEqualsResp => 3025
  | .DBObjectSetFieldIfEmpty => 3026
  | .DBObjectSetFieldIfEmptyResp => 3027
  | .DBObjectDeleteField => 3030
  | .DBObjectDeleteFields => 3031
  | .DBObjectDelete => 3032
  | .MDAddChannel => 9000
  | .MDRemoveChannel => 9001
  | .MDAddRange => 9002
  | .MDRemoveRange => 9003
  | .MDAddPostRemove => 9010
  | .MDClearPostRemoves => 9011
  | .MDSetConName => 9012
  | .MDSetConUrl => 9013
  | .MDLogMessage => 9014

/-! ### Theorems -/

/-- No arm of the analyzer's `match` ever adds to the typedef, struct or
class lists: only the import list can grow. -/
lemma handle_declaration_only_imports (f : intermediate.DCFile) (d : TypeDeclaration) :
    (handle_declaration f d).typedefs = f.typedefs ∧
      (handle_declaration f d).structs = f.structs ∧
      (handle_declaration f d).dclasses = f.dclasses := by
  cases d <;>
    simp [handle_declaration, intermediate.DCFile.add_python_import]

/-- Folding any declaration list leaves the typedef, struct and class
lists unchanged. -/
lemma foldl_handle_only_imports (l : List TypeDeclaration) (f : intermediate.DCFile) :
    (l.foldl handle_declaration f).typedefs = f.typedefs ∧
      (l.foldl handle_declaration f).structs = f.structs ∧
      (l.foldl handle_declaration f).dclasses = f.dclasses := by
  induction l generalizing f with
  | nil => exact ⟨rfl, rfl, rfl⟩
  | cons d rest ih =>
      obtain ⟨h1, h2, h3⟩ := handle_declaration_only_imports f d
      obtain ⟨g1, g2, g3⟩ := ih (handle_declaration f d)
      exact ⟨g1.trans h1, g2.trans h2, g3.trans h3⟩

/-- The intermediate aggregate the analyzer builds always has empty
typedef, struct and class lists. -/
lemma analyzer_intermediate_empty (data : PipelineData) :
    (data.syntax_trees.foldl
        (fun f ast => ast.type_declarations.foldl handle_declaration f)
        intermediate.DCFile.default).typedefs = [] ∧
      (data.syntax_trees.foldl
        (fun f ast => ast.type_declarations.foldl handle_declaration f)
        intermediate.DCFile.default).structs = [] ∧
      (data.syntax_trees.foldl
        (fun f ast => ast.type_declarations.foldl handle_declaration f)
        intermediate.DCFile.default).dclasses = [] := by
  suffices h : ∀ (ts : List AST) (f : intermediate.DCFile),
      (ts.foldl (fun f ast => ast.type_declarations.foldl handle_declaration f) f).typedefs
          = f.typedefs ∧
        (ts.foldl (fun f ast => ast.type_declarations.foldl handle_declaration f) f).structs
          = f.structs ∧
        (ts.foldl (fun f ast => ast.type_declarations.foldl handle_declaration f) f).dclasses
          = f.dclasses by
    exact h data.syntax_trees intermediate.DCFile.default
  intro ts
  induction ts with
  | nil => exact fun f => ⟨rfl, rfl, rfl⟩
  | cons t rest ih =>
      intro f
      obtain ⟨h1, h2, h3⟩ := foldl_handle_only_imports t.type_declarations f
      obtain ⟨g1, g2, g3⟩ := ih (t.type_declarations.foldl handle_declaration f)
      exact ⟨g1.trans h1, g2.trans h2, g3.trans h3⟩

/-- Finalization succeeds (never reaches the `todo!()` panic inside
`DClass::generate_hash`) whenever the intermediate class list is empty. -/
lemma finalize_isSome_of_no_dclasses (f : intermediate.DCFile) (h : f.dclasses = []) :
    ∃ pf : DCFile, f.finalize = some pf := by
  unfold intermediate.DCFile.finalize
  rw [h]
  exact ⟨_, rfl⟩

/-- The analyzer always publishes a DC file: the panic inside
finalization is unreachable because the class list stays empty. -/
lemma semantic_analyzer_total (data : PipelineData) :
    ∃ f : DCFile, semantic_analyzer data = some (Except.ok f) := by
  obtain ⟨-, -, h3⟩ := analyzer_intermediate_empty data
  obtain ⟨pf, hpf⟩ := finalize_isSome_of_no_dclasses _ h3
  exact ⟨pf, by rw [semantic_analyzer, hpf]; rfl⟩

/-- C2: running the compilation (the semantic analyzer followed by
finalization) twice on the same input yields identical published
results — one published DC file that both runs return — and in
particular an identical 32-bit schema hash value.  (The semantic
analyzer and the modelled finalization form one pure function of the
input, so equal inputs give equal outputs.) -/
theorem compile_two_run_equality (d1 d2 : PipelineData) (h : d1 = d2) :
    semantic_analyzer d1 = semantic_analyzer d2 ∧
      (∃ f : DCFile, semantic_analyzer d1 = some (Except.ok f) ∧
        semantic_analyzer d2 = some (Except.ok f)) ∧
      (∀ f1 f2 : DCFile, semantic_analyzer d1 = some (Except.ok f1) →
        semantic_analyzer d2 = some (Except.ok f2) → f1.hash = f2.hash) := by
  subst h
  refine ⟨rfl, ?_, ?_⟩
  · obtain ⟨f, hf⟩ := semantic_analyzer_total d1
    exact ⟨f, hf, hf⟩
  · intro f1 f2 h1 h2
    rw [h1] at h2
    cases Option.some.inj h2 |> Except.ok.inj
    rfl

/-- Witness for C2 at a concrete schema input (one file holding one
python-import declaration), both hypotheses discharged by `rfl`. -/
theorem compile_two_run_equality_witness :
    semantic_analyzer ⟨[⟨[.PythonImport ⟨"views", ["*"]⟩]⟩]⟩ =
        semantic_analyzer ⟨[⟨[.PythonImport ⟨"views", ["*"]⟩]⟩]⟩ ∧
      (∃ f : DCFile,
        semantic_analyzer ⟨[⟨[.PythonImport ⟨"views", ["*"]⟩]⟩]⟩ = some (Except.ok f) ∧
          semantic_analyzer ⟨[⟨[.PythonImport ⟨"views", ["*"]⟩]⟩]⟩ = some (Except.ok f)) ∧
      (∀ f1 f2 : DCFile,
        semantic_analyzer ⟨[⟨[.PythonImport ⟨"views", ["*"]⟩]⟩]⟩ = some (Except.ok f1) →
          semantic_analyzer ⟨[⟨[.PythonImport ⟨"views", ["*"]⟩]⟩]⟩ = some (Except.ok f2) →
          f1.hash = f2.hash) :=
  compile_two_run_equality ⟨[⟨[.PythonImport ⟨"views", ["*"]⟩]⟩]⟩
    ⟨[⟨[.PythonImport ⟨"views", ["*"]⟩]⟩]⟩ rfl

/-- The input refuting C1: one source file declaring a typedef
(`typedef uint32 ChannelId`) and a dclass (`dclass Avatar`). -/
def c1_failing_input : PipelineData :=
  ⟨[⟨[.TypedefType ⟨.TUInt32, "ChannelId"⟩, .DClassType ⟨"Avatar", []⟩]⟩]⟩

/-- C1 (evaluation at the failing input): the analyzer's `TypedefType`
and `DClassType` arms do nothing, so an AST holding a typedef and a
dclass declaration publishes a DC file with no typedef entry and no
class entry — against the claim that each such node is materialized. -/
theorem semantic_analyzer_drops_declarations :
    semantic_analyzer c1_failing_input =
        some (Except.ok { python_imports := [], typedefs := [], structs := [],
                          dclasses := [], hash := 0 }) ∧
      ∀ f : DCFile, semantic_analyzer c1_failing_input = some (Except.ok f) →
        f.typedefs = [] ∧ f.dclasses = [] := by
  have h0 : semantic_analyzer c1_failing_input =
      some (Except.ok { python_imports := [], typedefs := [], structs := [],
                        dclasses := [], hash := 0 }) := rfl
  refine ⟨h0, ?_⟩
  intro f hf
  rw [h0] at hf
  cases Option.some.inj hf |> Except.ok.inj
  exact ⟨rfl, rfl⟩

/-- The three import declarations of C3, as parsed and expanded. -/
def c3_input : PipelineData :=
  ⟨[⟨[.PythonImport (expand_import "views" .star),
      .PythonImport (expand_import "views" (.single "DistributedDonut")),
      .PythonImport (expand_import "views" (.multiSuffix "Class" ["AI", "OV"]))]⟩]⟩

/-- C3: `from views import Class/AI/OV` records module `views` with
exactly the symbols `Class`, `ClassAI`, `ClassOV` in that order;
`from views import *` records `views` with the single symbol `*`;
`from views import DistributedDonut` records `views` with the single
symbol `DistributedDonut`; and the analyzer records the three imports
in source order. -/
theorem import_expansion_cases :
    expand_import "views" (.multiSuffix "Class" ["AI", "OV"]) =
        { module := "views", symbols := ["Class", "ClassAI", "ClassOV"] } ∧
      expand_import "views" .star = { module := "views", symbols := ["*"] } ∧
      expand_import "views" (.single "DistributedDonut") =
        { module := "views", symbols := ["DistributedDonut"] } ∧
      ∃ f : DCFile, semantic_analyzer c3_input = some (Except.ok f) ∧
        f.python_imports =
          [{ module := "views", symbols := ["*"] },
           { module := "views", symbols := ["DistributedDonut"] },
           { module := "views", symbols := ["Class", "ClassAI", "ClassOV"] }] := by
  refine ⟨rfl, rfl, rfl, ⟨_, rfl, ?_⟩⟩
  rfl

/-- Counterexample to C4 as stated: `new_with_type` stores size `0`
for every kind, so for the fixed-width kind `uint32` the stored size is
`0` and `is_variable_length()` is `true` even though `uint32` is not a
variable-length kind — the claimed "size == 0 iff variable-length kind"
equivalence fails at `DCTypeDefinition::new_with_type(TUInt32)`. -/
theorem typedef_size_iff_counterexample :
    ¬ ((DCTypeDefinition.new_with_type .TUInt32).size = 0 ↔
        spec_variable_length_kind (DCTypeDefinition.new_with_type .TUInt32).data_type
          = true) ∧
      (DCTypeDefinition.new_with_type .TUInt32).size = 0 ∧
      (DCTypeDefinition.new_with_type .TUInt32).is_variable_length = true ∧
      spec_variable_length_kind .TUInt32 = false := by
  decide

/-- C4 (amended): every `DCTypeDefinition` reachable through the public
constructors (`new_with_type` with any kind, optionally followed by
`set_alias`) stores size `0`, hence `is_variable_length()` returns
`true` for every kind — the constructors never record a nonzero size. -/
theorem constructed_typedef_size_zero (td : DCTypeDefinition) (h : ReachableTypeDef td) :
    td.size = 0 ∧ td.is_variable_length = true := by
  rcases h with ⟨dt, rfl⟩ | ⟨dt, a, rfl⟩ <;> exact ⟨rfl, rfl⟩

/-- Witness for C4's amended theorem at `uint32`, the reachability
hypothesis discharged with the explicit constructor call. -/
theorem constructed_typedef_size_zero_witness :
    (DCTypeDefinition.new_with_type .TUInt32).size = 0 ∧
      (DCTypeDefinition.new_with_type .TUInt32).is_variable_length = true :=
  constructed_typedef_size_zero (DCTypeDefinition.new_with_type .TUInt32)
    (Or.inl ⟨.TUInt32, rfl⟩)

/-- C5: `DCTypeDefinition::generate_hash` adds exactly the type's
numeric tag (its `u8` discriminant widened to `i32`) to the hash
generator, followed by the alias string if and only if an alias is
present; consequently, for the same underlying type, the call sequence
produced with an alias set differs from the one without. -/
theorem typedef_generate_hash_calls (td : DCTypeDefinition) (g : DCHashGenerator) :
    (td.alias_name = none →
      td.generate_hash g = g.add_int (td.data_type.toTag : Int)) ∧
      (∀ a, td.alias_name = some a →
        td.generate_hash g = (g.add_int (td.data_type.toTag : Int)).add_string a) ∧
      (∀ (dt : DCTypeEnum) (a : String),
        ((DCTypeDefinition.new_with_type dt).set_alias a).generate_hash g ≠
          (DCTypeDefinition.new_with_type dt).generate_hash g) := by
  refine ⟨?_, ?_, ?_⟩
  · intro h
    simp [DCTypeDefinition.generate_hash, h]
  · intro a h
    simp [DCTypeDefinition.generate_hash, h]
  · intro dt a hEq
    have hlen := congrArg List.length hEq
    simp [DCTypeDefinition.generate_hash, DCTypeDefinition.new_with_type,
      DCTypeDefinition.set_alias, DCHashGenerator.add_int,
      DCHashGenerator.add_string] at hlen

/-- Witness for C5: at `uint32` (tag 6), the no-alias and with-alias
hypotheses each discharged by `rfl` at a concrete type definition. -/
theorem typedef_generate_hash_calls_witness :
    (DCTypeDefinition.new_with_type .TUInt32).generate_hash [] =
        DCHashGenerator.add_int [] (6 : Int) ∧
      ((DCTypeDefinition.new_with_type .TUInt32).set_alias "ChannelId").generate_hash [] =
        (DCHashGenerator.add_int [] (6 : Int)).add_string "ChannelId" :=
  ⟨(typedef_generate_hash_calls (DCTypeDefinition.new_with_type .TUInt32) []).1 rfl,
    (typedef_generate_hash_calls
      ((DCTypeDefinition.new_with_type .TUInt32).set_alias "ChannelId") []).2.1
      "ChannelId" rfl⟩

/-- C6: `==` on `DCNumber` (the manual `PartialEq`) holds iff the
`number_type` kinds are equal, regardless of the stored payload; in
particular any two integers compare equal and an integer never compares
equal to a floating-point value. -/
theorem dcnumber_eq_kind_only :
    (∀ a b : DCNumber, a.eq b = true ↔ a.number_type = b.number_type) ∧
      (∀ x y : Int, (DCNumber.new_integer x).eq (DCNumber.new_integer y) = true) ∧
      (∀ (x : Int) (bits : Nat),
        (DCNumber.new_integer x).eq (DCNumber.new_floating_point bits) = false) := by
  refine ⟨fun a b => ?_, fun x y => ?_, fun x bits => ?_⟩ <;>
    simp [DCNumber.eq, DCNumber.new_integer, DCNumber.new_floating_point]

/-- C7: `DClass::new(name, id)` yields a class with the given name and
id, zero parents, the bogus flag set, and no constructor; and
`set_parent` appends the parent handle at the end of the ordered parent
list — the count grows by one, previously stored parents keep their
index, and the new last index holds the appended parent. -/
theorem dclass_new_set_parent_spec (name : String) (id : Nat) (c : DClass) (p : DClassRef) :
    ((DClass.new name id).get_name).1 = name ∧
      ((DClass.new name id).get_class_id).1 = id ∧
      ((DClass.new name id).get_num_parents).1 = 0 ∧
      (DClass.new name id).is_bogus_class = true ∧
      ((DClass.new name id).has_constructor).1 = false ∧
      ((c.set_parent p).get_num_parents).1 = (c.get_num_parents).1 + 1 ∧
      (∀ i, i < (c.get_num_parents).1 →
        ((c.set_parent p).get_parent i).1 = (c.get_parent i).1) ∧
      ((c.set_parent p).get_parent (c.get_num_parents).1).1 = some p := by
  refine ⟨rfl, rfl, rfl, rfl, rfl, ?_, ?_, ?_⟩
  · simp [DClass.set_parent, DClass.get_num_parents]
  · intro i hi
    exact List.get?_append hi
  · exact List.get?_concat_length c.class_parents p

/-- Witness for C7 at a concrete class with one stored parent, the
index bound discharged by `decide`. -/
theorem dclass_new_set_parent_spec_witness :
    ((DClass.new "Avatar" 1).get_name).1 = "Avatar" ∧
      ((((DClass.new "Child" 2).set_parent ⟨5⟩).set_parent ⟨7⟩).get_parent 0).1 =
        (((DClass.new "Child" 2).set_parent ⟨5⟩).get_parent 0).1 ∧
      ((((DClass.new "Child" 2).set_parent ⟨5⟩).set_parent ⟨7⟩).get_parent 1).1 =
        some ⟨7⟩ := by
  have h := dclass_new_set_parent_spec "Avatar" 1 ((DClass.new "Child" 2).set_parent ⟨5⟩) ⟨7⟩
  exact ⟨h.1, h.2.2.2.2.2.2.1 0 (by decide), h.2.2.2.2.2.2.2⟩

/-- C8: each exposed read-only query of the `DClassInterface` impl —
`get_name`, `get_class_id`, `get_num_parents`, `get_parent`,
`has_constructor`, `get_constructor` — returns a post-call state equal
to the pre-call state: none mutates the class. -/
theorem dclass_getters_preserve_state (c : DClass) (i : Nat) :
    (c.get_name).2 = c ∧ (c.get_class_id).2 = c ∧ (c.get_num_parents).2 = c ∧
      (c.get_parent i).2 = c ∧ (c.has_constructor).2 = c ∧ (c.get_constructor).2 = c :=
  ⟨rfl, rfl, rfl, rfl, rfl, rfl⟩

/-- C9: `get_parent` is total — it returns `some` of the i-th parent in
declaration order when `i < get_num_parents()` and `none` (never a
panic: the source indexes with `Vec::get`) when `i ≥ get_num_parents()`;
on a freshly constructed class every index returns `none`. -/
theorem get_parent_total_spec (c : DClass) (i : Nat) :
    (∀ h : i < (c.get_num_parents).1,
      (c.get_parent i).1 = some (c.class_parents.get ⟨i, h⟩)) ∧
      ((c.get_num_parents).1 ≤ i → (c.get_parent i).1 = none) ∧
      (∀ (name : String) (id j : Nat), ((DClass.new name id).get_parent j).1 = none) := by
  refine ⟨?_, ?_, ?_⟩
  · intro h
    exact List.get?_eq_get h
  · intro h
    exact List.get?_eq_none.mpr h
  · intro name id j
    simp [DClass.new, DClass.get_parent]

/-- Witness for C9 at a class with one stored parent: index 0 is within
bounds (discharged by `decide`) and returns the parent, index 3 is out
of bounds and returns `none`. -/
theorem get_parent_total_spec_witness :
    (((DClass.new "A" 1).set_parent ⟨9⟩).get_parent 0).1 = some ⟨9⟩ ∧
      (((DClass.new "A" 1).set_parent ⟨9⟩).get_parent 3).1 = none := by
  have h0 := get_parent_total_spec ((DClass.new "A" 1).set_parent ⟨9⟩) 0
  have h3 := get_parent_total_spec ((DClass.new "A" 1).set_parent ⟨9⟩) 3
  exact ⟨h0.1 (by decide), h3.2.1 (by decide)⟩

set_option maxHeartbeats 4000000 in
set_option maxRecDepth 10000 in
/-- C10: all variants of the `Protocol` enum have pairwise-distinct
16-bit discriminant values — two distinct message-type variants never
share a numeric ID, and every ID fits in 16 bits — so a received 16-bit
message ID maps to at most one protocol message type. -/
theorem protocol_ids_distinct :
    ∀ a b : Protocol,
      (a ≠ b → Protocol.toU16 a ≠ Protocol.toU16 b) ∧ Protocol.toU16 a < 2 ^ 16 := by
  decide

/-- Witness for C10 at the concrete pair `ClientHello` /
`ClientHelloResp`, the distinctness hypothesis discharged by `decide`. -/
theorem protocol_ids_distinct_witness :
    Protocol.toU16 .ClientHello ≠ Protocol.toU16 .ClientHelloResp ∧
      Protocol.toU16 .ClientHello < 2 ^ 16 :=
  ⟨(protocol_ids_distinct .ClientHello .ClientHelloResp).1 (by decide),
    (protocol_ids_distinct .ClientHello .ClientHelloResp).2⟩

end Donet
